import Mathlib

/-
  Shallow embedding of the renderer state-synchronization core of the
  dynamic-island-desktop repository (src/electron/renderer/app.js and
  src/electron/renderer/lib/utils.js).

  JavaScript objects with optional keys are modelled as Lean structures
  whose updatable fields are wrapped in `Option`: `none` means the key is
  absent from the partial-update object (JS `undefined`), `some v` means
  the key is present with value `v`.  JS numbers in this code are only
  stored and compared, never rounded in state, so they are modelled as ℚ.
-/

namespace DynamicIsland

/- ═══════ System slice (state.system in app.js) ═══════ -/

structure Battery where
  percent : ℚ
  isCharging : Bool
deriving Repr, DecidableEq

structure Network where
  status : String
  netType : String
deriving Repr, DecidableEq

structure SystemState where
  battery : Battery
  cpu : ℚ
  ram : ℚ
  network : Network
deriving Repr, DecidableEq

/-- Initial system slice (app.js lines 32-38). -/
def initSystem : SystemState :=
  { battery := { percent := 0, isCharging := false }
    cpu := 0
    ram := 0
    network := { status := "disconnected", netType := "wifi" } }

/-- The wire `network` payload is either a bare string or an object with a
`connected` flag (app.js line 288 handles both). -/
inductive NetworkPayload
  | str (s : String)
  | obj (connected : Bool)
deriving Repr, DecidableEq

/-- JS truthiness of the `data.network` value at app.js line 287: an object
is always truthy, a string is truthy iff nonempty. -/
def NetworkPayload.truthy : NetworkPayload → Bool
  | .str s => s ≠ ""
  | .obj _ => true

/-- app.js line 288: `data.network === 'connected' || (typeof data.network
=== 'object' && data.network.connected)`. -/
def NetworkPayload.isConnected : NetworkPayload → Bool
  | .str s => s = "connected"
  | .obj c => c

/-- Partial payload of an inbound `system` message. -/
structure SystemData where
  battery : Option ℚ
  isCharging : Option Bool
  cpu : Option ℚ
  ram : Option ℚ
  network : Option NetworkPayload
deriving Repr, DecidableEq

/-- State part of `updateSystemData` (app.js lines 245-305).  Each guarded
block mirrors the source: the battery block runs iff `data.battery !==
undefined` and also writes `isCharging = data.isCharging || false`; the
cpu/ram blocks run iff their key is defined; the network block runs iff
`data.network` is truthy and rewrites only `network.status`.  DOM writes
are omitted. -/
def updateSystemData (s : SystemState) (d : SystemData) : SystemState :=
  let s1 := match d.battery with
    | some b => { s with battery := { percent := b, isCharging := d.isCharging.getD false } }
    | none => s
  let s2 := match d.cpu with
    | some c => { s1 with cpu := c }
    | none => s1
  let s3 := match d.ram with
    | some r => { s2 with ram := r }
    | none => s2
  match d.network with
  | some p =>
      if p.truthy then
        { s3 with network := { s3.network with
            status := if p.isConnected then "connected" else "disconnected" } }
      else s3
  | none => s3

/- ═══════ Live-activity slices (state.liveActivities) ═══════ -/

structure MediaState where
  isActive : Bool
  isPlaying : Bool
  title : String
  artist : String
  progress : ℚ
  duration : ℚ
  artworkUrl : Option String
deriving Repr, DecidableEq

def initMedia : MediaState :=
  { isActive := false, isPlaying := false, title := "", artist := ""
    progress := 0, duration := 0, artworkUrl := none }

structure MediaData where
  isActive : Option Bool
  isPlaying : Option Bool
  title : Option String
  artist : Option String
  progress : Option ℚ
  duration : Option ℚ
  artworkUrl : Option (Option String)
deriving Repr, DecidableEq

/-- State part of `updateMediaActivity` (app.js line 371):
`state.liveActivities.media = { ...state.liveActivities.media, ...data }` —
a shallow spread, each present key overwrites the stored field. -/
def updateMediaActivity (m : MediaState) (d : MediaData) : MediaState :=
  { isActive := d.isActive.getD m.isActive
    isPlaying := d.isPlaying.getD m.isPlaying
    title := d.title.getD m.title
    artist := d.artist.getD m.artist
    progress := d.progress.getD m.progress
    duration := d.duration.getD m.duration
    artworkUrl := match d.artworkUrl with
      | some u => u
      | none => m.artworkUrl }

structure TimerState where
  isActive : Bool
  remaining : ℚ
  total : Option ℚ
deriving Repr, DecidableEq

def initTimer : TimerState :=
  { isActive := false, remaining := 0, total := none }

structure TimerData where
  isActive : Option Bool
  remaining : Option ℚ
  total : Option (Option ℚ)
deriving Repr, DecidableEq

/-- State part of `updateTimerActivity` (app.js line 421): shallow spread. -/
def updateTimerActivity (t : TimerState) (d : TimerData) : TimerState :=
  { isActive := d.isActive.getD t.isActive
    remaining := d.remaining.getD t.remaining
    total := match d.total with
      | some v => v
      | none => t.total }

/-- Stored bluetooth slice.  `batteryLeft`/`batteryRight` are
`Option (Option ℚ)`: the outer `Option` is key presence (absent at init),
the inner one distinguishes wire `null` from a number. -/
structure BluetoothState where
  isActive : Bool
  deviceName : String
  battery : Option ℚ
  batteryLeft : Option (Option ℚ)
  batteryRight : Option (Option ℚ)
deriving Repr, DecidableEq

def initBluetooth : BluetoothState :=
  { isActive := false, deviceName := "", battery := none
    batteryLeft := none, batteryRight := none }

structure BluetoothData where
  isActive : Option Bool
  deviceName : Option String
  batteryLeft : Option (Option ℚ)
  batteryRight : Option (Option ℚ)
deriving Repr, DecidableEq

/-- State part of `updateBluetoothActivity` (app.js line 429): shallow
spread. -/
def updateBluetoothActivity (b : BluetoothState) (d : BluetoothData) : BluetoothState :=
  { isActive := d.isActive.getD b.isActive
    deviceName := d.deviceName.getD b.deviceName
    battery := b.battery
    batteryLeft := match d.batteryLeft with
      | some v => some v
      | none => b.batteryLeft
    batteryRight := match d.batteryRight with
      | some v => some v
      | none => b.batteryRight }

structure LiveActivities where
  media : MediaState
  timer : TimerState
  bluetooth : BluetoothState
deriving Repr, DecidableEq

def initLiveActivities : LiveActivities :=
  { media := initMedia, timer := initTimer, bluetooth := initBluetooth }

/- ═══════ utils.js ═══════ -/

namespace Utils

/-- Function `getGreeting` (utils.js lines 152-159), with the current hour
(`new Date().getHours()`, a value in 0..23) passed explicitly. -/
def getGreeting (hour : ℕ) : String :=
  if hour < 12 then "Good morning"
  else if hour < 17 then "Good afternoon"
  else if hour < 21 then "Good evening"
  else "Good night"

/-- Function `colorFromPercentage` as exported from utils.js (lines 229-234). -/
def colorFromPercentage (percent : ℚ) : String :=
  if percent ≤ 20 then "#ef4444"
  else if percent ≤ 50 then "#f59e0b"
  else if percent ≤ 75 then "#eab308"
  else "#10b981"

end Utils

namespace App

/-- Function `colorFromPercentage` as defined locally in app.js (lines 356-361). -/
def colorFromPercentage (percent : ℚ) : String :=
  if percent ≤ 20 then "#10b981"
  else if percent ≤ 50 then "#eab308"
  else if percent ≤ 75 then "#f59e0b"
  else "#ef4444"

end App

/- ═══════ Island transition controller (toggleIsland) ═══════ -/

structure IslandState where
  isExpanded : Bool
  isAnimating : Bool
  currentWidth : ℚ
  currentHeight : ℚ
  lastInteraction : ℤ
deriving Repr, DecidableEq

/-- Initial island slice (app.js lines 18-25), with `lastInteraction`
frozen at 0 in place of `Date.now()`. -/
def initIsland : IslandState :=
  { isExpanded := false, isAnimating := false
    currentWidth := 680, currentHeight := 32, lastInteraction := 0 }

/-- Synchronous prefix of `toggleIsland` (app.js lines 131-135), i.e.
everything that runs before the first `await`: reject if a transition is
in flight, otherwise mark `isAnimating` and flip `isExpanded`.  DOM and
animator calls are omitted. -/
def toggleIslandStart (s : IslandState) : IslandState :=
  if s.isAnimating then s
  else { s with isAnimating := true, isExpanded := !s.isExpanded }

/-- Tail of `toggleIsland` (app.js line 203), run when the awaited
animation chain completes: clear `isAnimating`. -/
def toggleIslandFinish (s : IslandState) : IslandState :=
  { s with isAnimating := false }

/- ═══════ Connection / reconnect machine (connectToBackend) ═══════ -/

/-- A scheduled `setInterval` handle, tagged with its delay in ms. -/
structure TimerHandle where
  id : ℕ
  delayMs : ℚ
deriving Repr, DecidableEq

/-- The connection slice of the state tree together with the timer
environment: `timers` is the list of interval handles that have been
created by `setInterval` and not yet cancelled by `clearInterval`;
`nextId` supplies fresh handle ids. -/
structure ConnWorld where
  isConnected : Bool
  reconnectAttempts : ℤ
  reconnectInterval : Option ℕ
  timers : List TimerHandle
  nextId : ℕ
deriving Repr, DecidableEq

/-- Initial connection slice (app.js lines 26-31) with an empty timer
environment. -/
def initConnWorld : ConnWorld :=
  { isConnected := false, reconnectAttempts := 0, reconnectInterval := none
    timers := [], nextId := 0 }

/-- Handler `ws.onopen` (app.js lines 468-482): mark connected, zero the
attempt counter, and if a reconnect interval is pending, `clearInterval`
it and null the handle. -/
def onOpen (w : ConnWorld) : ConnWorld :=
  match w.reconnectInterval with
  | some h =>
      { w with isConnected := true, reconnectAttempts := 0
               timers := w.timers.filter (fun t => t.id ≠ h)
               reconnectInterval := none }
  | none =>
      { w with isConnected := true, reconnectAttempts := 0 }

/-- Handler `ws.onclose` (app.js lines 497-510): mark disconnected, and
schedule a 5000 ms reconnect interval only if none is already pending. -/
def onClose (w : ConnWorld) : ConnWorld :=
  match w.reconnectInterval with
  | some _ => { w with isConnected := false }
  | none =>
      { w with isConnected := false
               reconnectInterval := some w.nextId
               timers := { id := w.nextId, delayMs := 5000 } :: w.timers
               nextId := w.nextId + 1 }

/-- One firing of the reconnect interval callback (app.js lines 504-508):
increment `reconnectAttempts` and call `connectToBackend()` again (which
touches neither the counter nor the interval handle). -/
def onReconnectTick (w : ConnWorld) : ConnWorld :=
  { w with reconnectAttempts := w.reconnectAttempts + 1 }

/-- Externally triggered connection lifecycle events. -/
inductive ConnEvent
  | opened
  | closed
  | tick
deriving Repr, DecidableEq

def connStep (w : ConnWorld) : ConnEvent → ConnWorld
  | .opened => onOpen w
  | .closed => onClose w
  | .tick => onReconnectTick w

/-- The connection world reached from startup after a sequence of
lifecycle events. -/
def connRun (es : List ConnEvent) : ConnWorld :=
  es.foldl connStep initConnWorld

/-- The pending reconnect timers a given interval handle accounts for. -/
def intervalTimers : Option ℕ → List TimerHandle
  | some h => [{ id := h, delayMs := 5000 }]
  | none => []

/- ═══════ Command emitter (sendCommand) ═══════ -/

/-- Primitive JSON values appearing in outbound command frames. -/
inductive JsVal
  | num (q : ℚ)
  | str (s : String)
  | bool (b : Bool)
  | null
deriving Repr, DecidableEq

/-- A JSON object as an ordered association list of its own keys. -/
abbrev JsObj : Type := List (String × JsVal)

/-- Assign `o[k] = v` with JS semantics: overwrite in place if the key
exists, append otherwise. -/
def objInsert (o : JsObj) (k : String) (v : JsVal) : JsObj :=
  if o.any (fun p => p.1 = k) then
    o.map (fun p => if p.1 = k then (k, v) else p)
  else
    o ++ [(k, v)]

def objLookup (o : JsObj) (k : String) : Option JsVal :=
  (o.find? (fun p => p.1 = k)).map (fun p => p.2)

/-- The object literal `{ type, action, ...data }` built by `sendCommand`
(app.js lines 615-619): start from the two named keys, then spread `data`,
later keys overwriting earlier ones. -/
def commandFrame (ty action : String) (data : JsObj) : JsObj :=
  data.foldl (fun o kv => objInsert o kv.1 kv.2)
    [("type", JsVal.str ty), ("action", JsVal.str action)]

/-- What `sendCommand` reads from `state.connection`. -/
structure ConnectionView where
  ws : Option ℕ
  isConnected : Bool
deriving Repr, DecidableEq

/-- Function `sendCommand` (app.js lines 613-621), returning the list of frames
written to the socket: one frame when `state.connection.ws` is non-null
and `isConnected` is set, none otherwise.  There is no queueing and the
function is total (no exception path). -/
def sendCommand (c : ConnectionView) (ty action : String) (data : JsObj) : List JsObj :=
  if c.ws.isSome && c.isConnected then
    [commandFrame ty action data]
  else
    []

/- ═══════ Derived-status projector (updateCollapsedStatus) ═══════ -/

structure UiState where
  navbarState : String
  greetingText : Option String
deriving Repr, DecidableEq

def initUi : UiState :=
  { navbarState := "greeting", greetingText := none }

/-- JS truthiness of `state.ui.greetingText`: falsy when null or empty. -/
def falsyStr : Option String → Bool
  | none => true
  | some s => s = ""

/-- Text part of `updateCollapsedStatus` (app.js lines 310-351), returning
the `statusText` string written to the DOM together with the updated ui
slice.  The headline branch runs iff `media.isActive && media.isPlaying`;
otherwise the (lazily cached) greeting is shown.  The stored timer and
bluetooth slices are read at line 311 but never consulted for the status
text.  Indicator/DOM-class writes are omitted. -/
def updateCollapsedStatus (acts : LiveActivities) (ui : UiState) (hour : ℕ) :
    String × UiState :=
  let media := acts.media
  let isMusicPlaying := media.isActive && media.isPlaying
  if isMusicPlaying then
    let txt :=
      if media.title ≠ "" ∧ media.title ≠ "Now Playing" ∧
         media.title ≠ "System Audio" ∧ media.title ≠ "Playing" then
        media.title ++ " • " ++ media.artist
      else
        "Now Playing"
    (txt, { ui with navbarState := "activity" })
  else
    let gt :=
      if falsyStr ui.greetingText then some (Utils.getGreeting hour)
      else ui.greetingText
    (gt.getD "", { navbarState := "greeting", greetingText := gt })

/- ═══════ Message router (handleBackendMessage) ═══════ -/

inductive LogLevel
  | info
  | success
  | warning
  | error
  | debug
deriving Repr, DecidableEq

structure LogEntry where
  level : LogLevel
  args : List String
deriving Repr, DecidableEq

/-- Typed view of the untyped `data` field of an inbound frame.  A payload
carries the fields of the shape its producer intended; a handler that
receives a payload of a different shape reads its expected keys as absent
(JS `undefined`), which the projections below reproduce. -/
inductive MsgData
  | system (d : SystemData)
  | media (d : MediaData)
  | timer (d : TimerData)
  | bluetooth (d : BluetoothData)
  | notification (title : String) (body : Option String)
  | window (title : Option String) (path : Option String)
  | empty
deriving Repr, DecidableEq

def MsgData.asSystem : MsgData → SystemData
  | .system d => d
  | _ => { battery := none, isCharging := none, cpu := none, ram := none, network := none }

def MsgData.asMedia : MsgData → MediaData
  | .media d => d
  | _ => { isActive := none, isPlaying := none, title := none, artist := none
           progress := none, duration := none, artworkUrl := none }

def MsgData.asTimer : MsgData → TimerData
  | .timer d => d
  | _ => { isActive := none, remaining := none, total := none }

def MsgData.asBluetooth : MsgData → BluetoothData
  | .bluetooth d => d
  | _ => { isActive := none, deviceName := none, batteryLeft := none, batteryRight := none }

/-- An inbound frame after JSON parsing: `{ type, data }`. -/
structure Msg where
  msgType : String
  data : MsgData
deriving Repr, DecidableEq

/-- The slices of the state tree an inbound frame can reach. -/
structure AppState where
  system : SystemState
  liveActivities : LiveActivities
  ui : UiState
deriving Repr, DecidableEq

def initAppState : AppState :=
  { system := initSystem, liveActivities := initLiveActivities, ui := initUi }

/-- Dispatcher `handleBackendMessage` (app.js lines 520-551): dispatch on
`message.type`.  The four state-slice handlers merge their payload and
then run `updateCollapsedStatus`; `notification` logs at info level and
touches no slice (its other effects are DOM-only); `window` touches no
slice (DOM-only); any other type logs at debug level and does nothing.
Returns the new state and the log entries emitted. -/
def handleBackendMessage (st : AppState) (m : Msg) (hour : ℕ) :
    AppState × List LogEntry :=
  if m.msgType = "system" then
    let sys := updateSystemData st.system m.data.asSystem
    let ui := (updateCollapsedStatus st.liveActivities st.ui hour).2
    ({ st with system := sys, ui := ui }, [])
  else if m.msgType = "media" then
    let acts := { st.liveActivities with
      media := updateMediaActivity st.liveActivities.media m.data.asMedia }
    let ui := (updateCollapsedStatus acts st.ui hour).2
    ({ st with liveActivities := acts, ui := ui }, [])
  else if m.msgType = "timer" then
    let acts := { st.liveActivities with
      timer := updateTimerActivity st.liveActivities.timer m.data.asTimer }
    let ui := (updateCollapsedStatus acts st.ui hour).2
    ({ st with liveActivities := acts, ui := ui }, [])
  else if m.msgType = "bluetooth" then
    let acts := { st.liveActivities with
      bluetooth := updateBluetoothActivity st.liveActivities.bluetooth m.data.asBluetooth }
    let ui := (updateCollapsedStatus acts st.ui hour).2
    ({ st with liveActivities := acts, ui := ui }, [])
  else if m.msgType = "notification" then
    (st, [{ level := LogLevel.info, args := ["Notification received:"] }])
  else if m.msgType = "window" then
    (st, [])
  else
    (st, [{ level := LogLevel.debug, args := ["Unknown message type:", m.msgType] }])

/-- The six message types `handleBackendMessage` recognizes. -/
def knownMsgTypes : List String :=
  ["system", "media", "timer", "bluetooth", "notification", "window"]

/-- One stored field obeys the shallow-merge frame rule: it takes the
update's value when the key is present in the partial update and keeps the
stored value when the key is absent. -/
def mergesField {α : Type} (stored updated : α) (upd : Option α) : Prop :=
  updated = upd.getD stored

/-- The frame rule for a field whose presence is itself stored (`none`
meaning the key has never been set on the stored object). -/
def mergesKey {α : Type} (stored updated : Option α) (upd : Option α) : Prop :=
  updated = match upd with
    | some v => some v
    | none => stored

/- ═══════════════════════════════════════════════════════════
   THEOREMS
   ═══════════════════════════════════════════════════════════ -/

/- Helper lemmas describing the per-field effect of updateSystemData. -/

theorem updateSystemData_battery (s : SystemState) (d : SystemData) :
    (updateSystemData s d).battery =
      match d.battery with
      | some bp => { percent := bp, isCharging := d.isCharging.getD false }
      | none => s.battery := by
  rcases d with ⟨db, dic, dc, dr, dn⟩
  cases db <;> cases dc <;> cases dr <;> cases dn <;>
    simp [updateSystemData] <;> split <;> rfl

theorem updateSystemData_cpu (s : SystemState) (d : SystemData) :
    (updateSystemData s d).cpu = d.cpu.getD s.cpu := by
  rcases d with ⟨db, dic, dc, dr, dn⟩
  cases db <;> cases dc <;> cases dr <;> cases dn <;>
    simp [updateSystemData] <;> split <;> rfl

theorem updateSystemData_ram (s : SystemState) (d : SystemData) :
    (updateSystemData s d).ram = d.ram.getD s.ram := by
  rcases d with ⟨db, dic, dc, dr, dn⟩
  cases db <;> cases dc <;> cases dr <;> cases dn <;>
    simp [updateSystemData] <;> split <;> rfl

theorem updateSystemData_network_none (s : SystemState) (d : SystemData)
    (h : d.network = none) : (updateSystemData s d).network = s.network := by
  rcases d with ⟨db, dic, dc, dr, dn⟩
  cases h
  cases db <;> cases dc <;> cases dr <;> simp [updateSystemData]

theorem updateSystemData_netType (s : SystemState) (d : SystemData) :
    (updateSystemData s d).network.netType = s.network.netType := by
  rcases d with ⟨db, dic, dc, dr, dn⟩
  cases db <;> cases dc <;> cases dr <;> cases dn <;>
    simp [updateSystemData] <;> split <;> rfl

/-- C9: the greeting text returned by getGreeting is determined solely by
the hour of day, with thresholds at 12, 17 and 21: before 12 it is the
morning greeting, from 12 to before 17 the afternoon greeting, from 17 to
before 21 the evening greeting, and from 21 on the night greeting. -/
theorem greeting_thresholds (hour : ℕ) :
    (hour < 12 → Utils.getGreeting hour = "Good morning") ∧
    (12 ≤ hour → hour < 17 → Utils.getGreeting hour = "Good afternoon") ∧
    (17 ≤ hour → hour < 21 → Utils.getGreeting hour = "Good evening") ∧
    (21 ≤ hour → Utils.getGreeting hour = "Good night") := by
  refine ⟨?_, ?_, ?_, ?_⟩
  · intro h; simp [Utils.getGreeting, h]
  · intro h1 h2
    rw [Utils.getGreeting, if_neg (by omega), if_pos h2]
  · intro h1 h2
    rw [Utils.getGreeting, if_neg (by omega), if_neg (by omega), if_pos h2]
  · intro h
    rw [Utils.getGreeting, if_neg (by omega), if_neg (by omega), if_neg (by omega)]

/-- Witness for the greeting thresholds at the concrete hours 9, 13, 18
and 22. -/
theorem greeting_thresholds_witness :
    Utils.getGreeting 9 = "Good morning" ∧
    Utils.getGreeting 13 = "Good afternoon" ∧
    Utils.getGreeting 18 = "Good evening" ∧
    Utils.getGreeting 22 = "Good night" :=
  ⟨(greeting_thresholds 9).1 (by decide),
   (greeting_thresholds 13).2.1 (by decide) (by decide),
   (greeting_thresholds 18).2.2.1 (by decide) (by decide),
   (greeting_thresholds 22).2.2.2 (by decide)⟩

/-- C10 counterexample: the two colorFromPercentage functions disagree at
input 10 — app.js returns the green hex code, utils.js the red one — so
they are not extensionally equal. -/
theorem colorFromPercentage_disagree_at_ten :
    App.colorFromPercentage 10 = "#10b981" ∧
    Utils.colorFromPercentage 10 = "#ef4444" ∧
    (App.colorFromPercentage 10 == Utils.colorFromPercentage 10) = false := by
  refine ⟨rfl, rfl, ?_⟩
  decide

/-- C10 (amended): the colorFromPercentage in app.js and the one exported
from utils.js are not extensionally equal — they return different color
strings at every input, because their color ramps run in opposite
directions (app.js maps low percentages to green and high to red, utils.js
the reverse). -/
theorem colorFromPercentage_never_equal (p : ℚ) :
    (App.colorFromPercentage p == Utils.colorFromPercentage p) = false := by
  unfold App.colorFromPercentage Utils.colorFromPercentage
  rcases le_or_lt p 20 with h20 | h20
  · rw [if_pos h20, if_pos h20]; decide
  · rw [if_neg (not_le.mpr h20), if_neg (not_le.mpr h20)]
    rcases le_or_lt p 50 with h50 | h50
    · rw [if_pos h50, if_pos h50]; decide
    · rw [if_neg (not_le.mpr h50), if_neg (not_le.mpr h50)]
      rcases le_or_lt p 75 with h75 | h75
      · rw [if_pos h75, if_pos h75]; decide
      · rw [if_neg (not_le.mpr h75), if_neg (not_le.mpr h75)]; decide

/-- C2 counterexample: the merge boundary performs no clamping — merging
battery 150 stores 150 (not 100) and merging battery -5 stores -5
(not 0). -/
theorem no_clamp_counterexample :
    (updateSystemData initSystem
      { battery := some 150, isCharging := none, cpu := none, ram := none,
        network := none }).battery.percent = 150 ∧
    (updateSystemData initSystem
      { battery := some 150, isCharging := none, cpu := none, ram := none,
        network := none }).battery.percent ≠ 100 ∧
    (updateSystemData initSystem
      { battery := some (-5), isCharging := none, cpu := none, ram := none,
        network := none }).battery.percent = -5 ∧
    (updateSystemData initSystem
      { battery := some (-5), isCharging := none, cpu := none, ram := none,
        network := none }).battery.percent ≠ 0 := by
  refine ⟨rfl, ?_, rfl, ?_⟩ <;> decide

/-- C2 (amended): updateSystemData stores inbound battery, cpu and ram
values exactly as received, with no clamping to the range 0..100 at the
merge boundary. -/
theorem merge_stores_unclamped (s : SystemState) (b c r : ℚ) :
    (updateSystemData s
      { battery := some b, isCharging := none, cpu := some c, ram := some r,
        network := none }).battery.percent = b ∧
    (updateSystemData s
      { battery := some b, isCharging := none, cpu := some c, ram := some r,
        network := none }).cpu = c ∧
    (updateSystemData s
      { battery := some b, isCharging := none, cpu := some c, ram := some r,
        network := none }).ram = r :=
  ⟨rfl, rfl, rfl⟩

/-- C3: a toggle request while a transition is in flight is a no-op — if
isAnimating holds, toggleIsland returns before touching any island state;
and from a quiescent state, two back-to-back toggles (the second arriving
before the first one's animation chain completes and clears isAnimating)
flip the phase exactly once, the second call changing nothing. -/
theorem toggle_during_animation_noop (s : IslandState) :
    (s.isAnimating = true → toggleIslandStart s = s) ∧
    (s.isAnimating = false →
      (toggleIslandStart s).isExpanded = !s.isExpanded ∧
      (toggleIslandStart s).isAnimating = true ∧
      toggleIslandStart (toggleIslandStart s) = toggleIslandStart s) := by
  constructor
  · intro h; simp [toggleIslandStart, h]
  · intro h; simp [toggleIslandStart, h]

/-- Witness for the toggle no-op property at the initial island state. -/
theorem toggle_during_animation_noop_witness :
    (toggleIslandStart initIsland).isExpanded = !initIsland.isExpanded ∧
    (toggleIslandStart initIsland).isAnimating = true ∧
    toggleIslandStart (toggleIslandStart initIsland) = toggleIslandStart initIsland :=
  (toggle_during_animation_noop initIsland).2 rfl

/-- C1 counterexample: a system update containing battery but no
isCharging key does NOT leave the stored isCharging field unchanged — the
battery block writes `isCharging = data.isCharging || false`, so a stored
true is overwritten with false. -/
theorem battery_merge_overwrites_isCharging :
    ({ battery := { percent := 80, isCharging := true }, cpu := 10, ram := 20,
       network := { status := "connected", netType := "wifi" } } : SystemState).battery.isCharging
      = true ∧
    (updateSystemData
      { battery := { percent := 80, isCharging := true }, cpu := 10, ram := 20,
        network := { status := "connected", netType := "wifi" } }
      { battery := some 50, isCharging := none, cpu := none, ram := none,
        network := none }).battery.isCharging = false :=
  ⟨rfl, rfl⟩

/-- C1 (amended): the media, timer and bluetooth merges change exactly the
fields whose keys are present in the partial update and leave all other
fields untouched; updateSystemData obeys the same rule for cpu, ram and
network (and never touches network.type), EXCEPT that it treats battery
and isCharging as one group: when the battery key is present, isCharging
is also overwritten — with the update's isCharging if present, else false
— and when the battery key is absent, an isCharging key is ignored and the
whole stored battery object is untouched. -/
theorem merge_frame_conditions (s : SystemState) (d : SystemData)
    (m : MediaState) (dm : MediaData) (t : TimerState) (dt : TimerData)
    (b : BluetoothState) (db : BluetoothData) :
    ((d.battery = none → (updateSystemData s d).battery = s.battery) ∧
     (∀ bp, d.battery = some bp →
        (updateSystemData s d).battery.percent = bp ∧
        (updateSystemData s d).battery.isCharging = d.isCharging.getD false) ∧
     mergesField s.cpu (updateSystemData s d).cpu d.cpu ∧
     mergesField s.ram (updateSystemData s d).ram d.ram ∧
     (d.network = none → (updateSystemData s d).network = s.network) ∧
     (updateSystemData s d).network.netType = s.network.netType) ∧
    (mergesField m.isActive (updateMediaActivity m dm).isActive dm.isActive ∧
     mergesField m.isPlaying (updateMediaActivity m dm).isPlaying dm.isPlaying ∧
     mergesField m.title (updateMediaActivity m dm).title dm.title ∧
     mergesField m.artist (updateMediaActivity m dm).artist dm.artist ∧
     mergesField m.progress (updateMediaActivity m dm).progress dm.progress ∧
     mergesField m.duration (updateMediaActivity m dm).duration dm.duration ∧
     mergesField m.artworkUrl (updateMediaActivity m dm).artworkUrl dm.artworkUrl) ∧
    (mergesField t.isActive (updateTimerActivity t dt).isActive dt.isActive ∧
     mergesField t.remaining (updateTimerActivity t dt).remaining dt.remaining ∧
     mergesField t.total (updateTimerActivity t dt).total dt.total) ∧
    (mergesField b.isActive (updateBluetoothActivity b db).isActive db.isActive ∧
     mergesField b.deviceName (updateBluetoothActivity b db).deviceName db.deviceName ∧
     (updateBluetoothActivity b db).battery = b.battery ∧
     mergesKey b.batteryLeft (updateBluetoothActivity b db).batteryLeft db.batteryLeft ∧
     mergesKey b.batteryRight (updateBluetoothActivity b db).batteryRight db.batteryRight) := by
  refine ⟨⟨?_, ?_, ?_, ?_, ?_, ?_⟩,
          ⟨rfl, rfl, rfl, rfl, rfl, rfl, ?_⟩,
          ⟨rfl, rfl, ?_⟩,
          ⟨rfl, rfl, rfl, ?_, ?_⟩⟩
  · intro h; rw [updateSystemData_battery, h]
  · intro bp h; rw [updateSystemData_battery, h]; exact ⟨rfl, rfl⟩
  · exact updateSystemData_cpu s d
  · exact updateSystemData_ram s d
  · exact updateSystemData_network_none s d
  · exact updateSystemData_netType s d
  · unfold mergesField; cases h : dm.artworkUrl <;> simp [updateMediaActivity, h]
  · unfold mergesField; cases h : dt.total <;> simp [updateTimerActivity, h]
  · unfold mergesKey; cases h : db.batteryLeft <;> simp [updateBluetoothActivity, h]
  · unfold mergesKey; cases h : db.batteryRight <;> simp [updateBluetoothActivity, h]

/-- Witness for the amended merge frame conditions: with battery absent,
a present isCharging key is ignored and the stored battery object is
untouched, while the present cpu key lands. -/
theorem merge_frame_conditions_witness :
    (updateSystemData initSystem
      { battery := none, isCharging := some true, cpu := some 42, ram := none,
        network := none }).battery = initSystem.battery ∧
    (updateSystemData initSystem
      { battery := none, isCharging := some true, cpu := some 42, ram := none,
        network := none }).cpu = 42 := by
  have h := merge_frame_conditions initSystem
    { battery := none, isCharging := some true, cpu := some 42, ram := none,
      network := none }
    initMedia
    { isActive := none, isPlaying := none, title := none, artist := none,
      progress := none, duration := none, artworkUrl := none }
    initTimer
    { isActive := none, remaining := none, total := none }
    initBluetooth
    { isActive := none, deviceName := none, batteryLeft := none, batteryRight := none }
  exact ⟨h.1.1 rfl, h.1.2.2.1⟩

/-- Generic invariant principle for the connection lifecycle machine: a
property of the connection world that holds at startup and is preserved by
every event holds after any event sequence. -/
theorem connRun_invariant (P : ConnWorld → Prop) (h0 : P initConnWorld)
    (hstep : ∀ w e, P w → P (connStep w e)) (es : List ConnEvent) :
    P (connRun es) := by
  unfold connRun
  suffices h : ∀ w, P w → P (es.foldl connStep w) from h _ h0
  induction es with
  | nil => intro w hw; simpa using hw
  | cons e rest ih => intro w hw; exact ih _ (hstep w e hw)

/-- C4: at most one pending reconnect timer ever exists.  Along every
event sequence the timer environment holds exactly the timers accounted
for by the reconnectInterval handle — hence at most one, always with the
flat 5000 ms delay; a close with a reconnect interval already pending
schedules nothing; a close with none pending schedules exactly one 5000 ms
interval; the open handler nulls the handle (clearing the pending timer)
and marks the connection Connected, while a reconnect tick cancels
nothing. -/
theorem reconnect_timer_singleton :
    (∀ es : List ConnEvent,
       (connRun es).timers = intervalTimers (connRun es).reconnectInterval ∧
       (connRun es).timers.length ≤ 1) ∧
    (∀ (w : ConnWorld) (h : ℕ),
       (onClose { w with reconnectInterval := some h }).timers = w.timers ∧
       (onClose { w with reconnectInterval := some h }).reconnectInterval = some h) ∧
    (∀ w : ConnWorld,
       (onClose { w with reconnectInterval := none }).timers =
         { id := w.nextId, delayMs := 5000 } :: w.timers ∧
       (onClose { w with reconnectInterval := none }).reconnectInterval = some w.nextId) ∧
    (∀ w : ConnWorld,
       (onOpen w).reconnectInterval = none ∧ (onOpen w).isConnected = true) ∧
    (∀ w : ConnWorld,
       (onReconnectTick w).timers = w.timers ∧
       (onReconnectTick w).reconnectInterval = w.reconnectInterval) := by
  refine ⟨?_, ?_, ?_, ?_, ?_⟩
  · intro es
    have hinv := connRun_invariant
      (fun w => w.timers = intervalTimers w.reconnectInterval) rfl ?_ es
    · refine ⟨hinv, ?_⟩
      rw [hinv]
      cases (connRun es).reconnectInterval <;> simp [intervalTimers]
    · intro w e hw
      cases e with
      | opened =>
        cases hr : w.reconnectInterval with
        | none =>
          rw [hr] at hw
          simpa [connStep, onOpen, hr, intervalTimers] using hw
        | some hId =>
          rw [hr] at hw
          simp [intervalTimers] at hw
          simp [connStep, onOpen, hr, intervalTimers, hw, List.filter]
      | closed =>
        cases hr : w.reconnectInterval with
        | none =>
          rw [hr] at hw
          simp [intervalTimers] at hw
          simp [connStep, onClose, hr, intervalTimers, hw]
        | some hId =>
          rw [hr] at hw
          simp [connStep, onClose, hr, intervalTimers] at hw ⊢
          exact hw
      | tick => simpa [connStep, onReconnectTick] using hw
  · intro w h; exact ⟨rfl, rfl⟩
  · intro w; exact ⟨rfl, rfl⟩
  · intro w; cases hr : w.reconnectInterval <;> simp [onOpen, hr]
  · intro w; exact ⟨rfl, rfl⟩

/-- C8: reconnectAttempts is reset to 0 exactly by the open handler, is
incremented by exactly 1 on each firing of the reconnect interval, is left
unchanged by the close handler, and stays non-negative along every event
sequence from startup. -/
theorem reconnectAttempts_counter :
    (∀ w : ConnWorld, (onOpen w).reconnectAttempts = 0) ∧
    (∀ w : ConnWorld,
       (onReconnectTick w).reconnectAttempts = w.reconnectAttempts + 1) ∧
    (∀ w : ConnWorld, (onClose w).reconnectAttempts = w.reconnectAttempts) ∧
    (∀ es : List ConnEvent, 0 ≤ (connRun es).reconnectAttempts) := by
  refine ⟨?_, ?_, ?_, ?_⟩
  · intro w; cases hr : w.reconnectInterval <;> simp [onOpen, hr]
  · intro w; rfl
  · intro w; cases hr : w.reconnectInterval <;> simp [onClose, hr]
  · intro es
    refine connRun_invariant (fun w => 0 ≤ w.reconnectAttempts) (by simp [initConnWorld]) ?_ es
    intro w e hw
    cases e with
    | opened => cases hr : w.reconnectInterval <;> simp [connStep, onOpen, hr]
    | closed => cases hr : w.reconnectInterval <;> simpa [connStep, onClose, hr] using hw
    | tick => simp [connStep, onReconnectTick]; omega

/-- C5 counterexample: with no music playing but the timer AND bluetooth
slices active, updateCollapsedStatus still shows the greeting — there is
no timer or bluetooth headline; indeed the result is identical to the one
for a state where timer and bluetooth are inactive. -/
theorem collapsed_status_ignores_timer :
    (updateCollapsedStatus
      { media := initMedia,
        timer := { isActive := true, remaining := 30, total := some 60 },
        bluetooth := { isActive := true, deviceName := "AirPods", battery := none,
                       batteryLeft := some (some 80), batteryRight := some (some 75) } }
      { navbarState := "greeting", greetingText := some "Good morning" } 9).1
      = "Good morning" ∧
    updateCollapsedStatus
      { media := initMedia,
        timer := { isActive := true, remaining := 30, total := some 60 },
        bluetooth := { isActive := true, deviceName := "AirPods", battery := none,
                       batteryLeft := some (some 80), batteryRight := some (some 75) } }
      { navbarState := "greeting", greetingText := some "Good morning" } 9
      = updateCollapsedStatus
      { media := initMedia, timer := initTimer, bluetooth := initBluetooth }
      { navbarState := "greeting", greetingText := some "Good morning" } 9 :=
  ⟨rfl, rfl⟩

/-- C5 (amended): the collapsed-view headline priority is Media (isActive
and isPlaying) over the default greeting, and nothing else: when music is
playing the media title/artist headline (or the fallback "Now Playing" for
empty/generic titles) is shown, otherwise the cached or freshly computed
greeting; the timer and bluetooth slices never influence the collapsed
status text. -/
theorem collapsed_status_priority (acts : LiveActivities) (ui : UiState) (hour : ℕ) :
    ((acts.media.isActive && acts.media.isPlaying) = true →
       (updateCollapsedStatus acts ui hour).1 =
         (if acts.media.title ≠ "" ∧ acts.media.title ≠ "Now Playing" ∧
             acts.media.title ≠ "System Audio" ∧ acts.media.title ≠ "Playing"
          then acts.media.title ++ " • " ++ acts.media.artist
          else "Now Playing")) ∧
    ((acts.media.isActive && acts.media.isPlaying) = false →
       (updateCollapsedStatus acts ui hour).1 =
         (if falsyStr ui.greetingText then Utils.getGreeting hour
          else ui.greetingText.getD "")) ∧
    (∀ (t' : TimerState) (b' : BluetoothState),
       updateCollapsedStatus acts ui hour =
         updateCollapsedStatus { media := acts.media, timer := t', bluetooth := b' } ui hour) := by
  refine ⟨?_, ?_, ?_⟩
  · intro h; simp [updateCollapsedStatus, h]
  · intro h
    cases hf : falsyStr ui.greetingText <;>
      simp [updateCollapsedStatus, h, hf]
  · intro t' b'; rfl

/-- Witness for the collapsed-status priority: with media active and
playing alongside an active timer, the media headline wins. -/
theorem collapsed_status_priority_witness :
    (updateCollapsedStatus
      { media := { isActive := true, isPlaying := true, title := "Blinding Lights",
                   artist := "The Weeknd", progress := 45, duration := 200,
                   artworkUrl := none },
        timer := { isActive := true, remaining := 30, total := some 60 },
        bluetooth := initBluetooth }
      initUi 9).1 = "Blinding Lights • The Weeknd" := by
  have h := (collapsed_status_priority
    { media := { isActive := true, isPlaying := true, title := "Blinding Lights",
                 artist := "The Weeknd", progress := 45, duration := 200,
                 artworkUrl := none },
      timer := { isActive := true, remaining := 30, total := some 60 },
      bluetooth := initBluetooth }
    initUi 9).1 rfl
  simpa using h

/-- Inserting a key absent from a JS object appends it. -/
theorem objInsert_fresh (o : JsObj) (k : String) (v : JsVal)
    (h : ∀ p ∈ o, p.1 ≠ k) : objInsert o k v = o ++ [(k, v)] := by
  have hfalse : o.any (fun p => p.1 = k) = false := by
    rw [List.any_eq_false]
    intro p hp
    simpa using h p hp
  unfold objInsert
  simp [hfalse]

/-- Spreading an object whose keys are pairwise distinct and disjoint from
the base object's keys appends its entries in order. -/
theorem foldl_objInsert_fresh (data : JsObj) :
    ∀ base : JsObj, (∀ kv ∈ data, ∀ p ∈ base, p.1 ≠ kv.1) →
      (data.map Prod.fst).Nodup →
      data.foldl (fun o kv => objInsert o kv.1 kv.2) base = base ++ data := by
  induction data with
  | nil => intro base _ _; simp
  | cons kv rest ih =>
    intro base hdisj hnodup
    rw [List.map_cons, List.nodup_cons] at hnodup
    simp only [List.foldl_cons]
    rw [objInsert_fresh base kv.1 kv.2 (fun p hp => hdisj kv (by simp) p hp)]
    rw [ih (base ++ [(kv.1, kv.2)]) ?_ hnodup.2]
    · simp
    · intro kv2 h2 p hp
      rcases List.mem_append.mp hp with hb | hsing
      · exact hdisj kv2 (by simp [h2]) p hb
      · have hp1 : p = (kv.1, kv.2) := by simpa using hsing
        rw [hp1]
        intro he
        have he' : kv.1 = kv2.1 := he
        exact hnodup.1 (by rw [he']; exact List.mem_map_of_mem Prod.fst h2)

/-- C6: sendCommand transmits exactly one outbound frame while the
connection is Connected (live socket and isConnected set) and zero frames
while Disconnected, with no queueing and no exception path; the single
frame is the object built from the type and action keys followed by the
spread extra data, which — when the extra keys are distinct and do not
collide with type/action — is literally the type/action pair followed by
the extra entries. -/
theorem sendCommand_frames (c : ConnectionView) (hnd : ℕ) (ty action : String)
    (data : JsObj) :
    (c.ws = some hnd → c.isConnected = true →
       sendCommand c ty action data = [commandFrame ty action data]) ∧
    (c.isConnected = false → sendCommand c ty action data = []) ∧
    ((∀ kv ∈ data, kv.1 ≠ "type" ∧ kv.1 ≠ "action") →
       (data.map Prod.fst).Nodup →
       commandFrame ty action data =
         ("type", JsVal.str ty) :: ("action", JsVal.str action) :: data) := by
  refine ⟨?_, ?_, ?_⟩
  · intro hws hc; simp [sendCommand, hws, hc]
  · intro hc; simp [sendCommand, hc]
  · intro hfresh hnodup
    unfold commandFrame
    rw [foldl_objInsert_fresh data [("type", JsVal.str ty), ("action", JsVal.str action)]
        ?_ hnodup]
    · rfl
    · intro kv hkv p hp
      simp at hp
      rcases hp with hp | hp <;> rw [hp] <;> intro he
      · exact (hfresh kv hkv).1 he.symm
      · exact (hfresh kv hkv).2 he.symm

/-- Witness for sendCommand: the media-control toggle command produces one
frame while Connected and none while Disconnected. -/
theorem sendCommand_frames_witness :
    sendCommand { ws := some 0, isConnected := true } "media_control" "toggle" []
      = [commandFrame "media_control" "toggle" []] ∧
    sendCommand { ws := some 0, isConnected := false } "media_control" "toggle" []
      = [] ∧
    commandFrame "media_control" "toggle" []
      = [("type", JsVal.str "media_control"), ("action", JsVal.str "toggle")] :=
  ⟨(sendCommand_frames { ws := some 0, isConnected := true } 0
      "media_control" "toggle" []).1 rfl rfl,
   (sendCommand_frames { ws := some 0, isConnected := false } 0
      "media_control" "toggle" []).2.1 rfl,
   (sendCommand_frames { ws := some 0, isConnected := true } 0
      "media_control" "toggle" []).2.2 (by simp) (by simp)⟩

/-- C7: an inbound frame whose type is none of system, media, timer,
bluetooth, notification or window is logged at debug level, mutates no
slice of the state tree, and — the dispatcher being a total function —
never raises to its caller. -/
theorem unknown_message_kind_dropped (st : AppState) (m : Msg) (hour : ℕ)
    (h : m.msgType ∉ knownMsgTypes) :
    handleBackendMessage st m hour =
      (st, [{ level := LogLevel.debug, args := ["Unknown message type:", m.msgType] }]) := by
  obtain ⟨h1, h2, h3, h4, h5, h6⟩ :
      m.msgType ≠ "system" ∧ m.msgType ≠ "media" ∧ m.msgType ≠ "timer" ∧
      m.msgType ≠ "bluetooth" ∧ m.msgType ≠ "notification" ∧ m.msgType ≠ "window" := by
    simpa [knownMsgTypes] using h
  simp [handleBackendMessage, h1, h2, h3, h4, h5, h6]

/-- Witness for the unknown-kind rule at the concrete type "weather". -/
theorem unknown_message_kind_dropped_witness :
    handleBackendMessage initAppState { msgType := "weather", data := MsgData.empty } 9 =
      (initAppState,
       [{ level := LogLevel.debug, args := ["Unknown message type:", "weather"] }]) :=
  unknown_message_kind_dropped initAppState
    { msgType := "weather", data := MsgData.empty } 9 (by decide)

end DynamicIsland

